import Mathlib

/-!
# Verification of the SprintPlanner schedule core

Shallow embedding of the schedule-construction logic of
`app_streamlit_all_in_one.py`: the phase table, the weekly rotation
templates, the time-slot annotating helpers, the volume-modifier
computation and the `build_schedule` orchestrator, plus the independent
`taper_protocol` lookup.

Modelling conventions:

* Dates are integer day numbers (days since 1970-01-01, the epoch of the
  `datetime` values the program manipulates; 1970-01-01 is a Thursday, so
  a day number `d` falls on a Monday iff `d % 7 = 4`).  `daysFromCivil`
  converts a Gregorian calendar date to its day number; the
  `strptime`/`strftime` string formatting itself is not modelled — the
  configuration carries day numbers directly.
* Python floats are IEEE-754 binary64 values, embedded with exact integer
  arithmetic.  Every float that takes part in the volume computation (the
  literals `0.9`, `0.95`, `1.0` and their products) lies in the binade
  `[1/2, 1]`, where the binary64 grid has spacing `2 ^ (-53)`; such a
  float is represented by its integer numerator on that grid (its value
  times `2 ^ 53`).  `toB64m` rounds a fraction to that grid with
  round-to-nearest, ties-to-even — exactly what the hardware does in that
  binade — and `mulB64m` is the binary64 product of two such floats.
  Floats that are only stored and displayed (the results of
  `round(x, 2)` and the literals `0.5` and `0.4`) are represented in
  hundredths: the integer `k` stands for the float printed `k/100` (`85`
  for `0.85`, `50` for `0.5`, `40` for `0.4`), which identifies the
  stored double uniquely.  `pyRound2m` is Python's `round(x, 2)`:
  correct rounding of the exact binary value to hundredths, ties to even.
-/

namespace SprintPlanner

/-- Day number of a Gregorian date (days since 1970-01-01), via the
standard civil-days algorithm with floor division. -/
def daysFromCivil (y m d : Int) : Int :=
  let y2 := if m ≤ 2 then y - 1 else y
  let era := y2 / 400
  let yoe := y2 - era * 400
  let mp := (m + 9) % 12
  let doy := (153 * mp + 2) / 5 + d - 1
  let doe := yoe * 365 + yoe / 4 - yoe / 100 + doy
  era * 146097 + doe - 719468

/-- First Monday on or after day `s` (Mondays are the days `≡ 4 [ZMOD 7]`). -/
def firstMondayFrom (s : Int) : Int := s + (4 - s) % 7

/-- The Mondays `w` with `s ≤ w ≤ e`, in increasing order.  This is the
anchor enumeration `pd.date_range(start, end, freq="W-MON")` of
`build_schedule`. -/
def mondays (s e : Int) : List Int :=
  (List.range ((e - firstMondayFrom s) / 7 + 1).toNat).map
    (fun (i : Nat) => firstMondayFrom s + 7 * (Nat.cast i : Int))

/-- Round the fraction `a / b` (with `b > 0`) to the nearest integer,
ties to even — the rounding used both by IEEE-754 arithmetic and by
Python's `round`. -/
def rneInt (a b : Int) : Int :=
  let q := a / b
  let r := a % b
  if 2 * r < b then q
  else if b < 2 * r then q + 1
  else if q % 2 = 0 then q else q + 1

/-- Grid numerator (value times `2 ^ 53`) of the binary64 value nearest
to the fraction `a / b`, for fractions in `[1/2, 1]`. -/
def toB64m (a b : Int) : Int := rneInt (a * 2 ^ 53) b

/-- Binary64 product of two floats given by their `[1/2, 1]`-binade grid
numerators, the product lying in the same binade. -/
def mulB64m (x y : Int) : Int := rneInt (x * y) (2 ^ 53)

/-- Python's `round(x, 2)` on a float with grid numerator `x`: correctly
round the exact binary value to two decimal places, ties to even.  The
result is in hundredths. -/
def pyRound2m (x : Int) : Int := rneInt (x * 100) (2 ^ 53)

/-- Grid numerator of the binary64 float literal `0.9` (commute factor). -/
def d09m : Int := toB64m 9 10

/-- Grid numerator of the binary64 float literal `0.95` (age factor). -/
def d095m : Int := toB64m 19 20

/-- Grid numerator of the float `1.0`. -/
def oneM : Int := 2 ^ 53

/-- `charsStartWith p l` : the char list `p` is a prefix of `l`. -/
def charsStartWith : List Char → List Char → Bool
  | [], _ => true
  | _ :: _, [] => false
  | a :: as, b :: bs => a == b && charsStartWith as bs

/-- Python's substring test `sub in s`. -/
def strContains (s sub : String) : Bool :=
  (List.range (s.data.length + 1)).any (fun i => charsStartWith sub.data (s.data.drop i))

/-- `DEFAULT_PHASES` of the source: phase name and focus description. -/
def DEFAULT_PHASES : List (String × String) :=
  [ ("Phase 1 - General Prep", "Build foundation: sprint drills, general strength"),
    ("Phase 2 - Specific Prep", "Acceleration, max velocity, introduce 150m runs"),
    ("Phase 3 - Pre-Competition (Indoor)", "Sharpening, block starts, race sim (60/200)"),
    ("Phase 4 - Taper & Peak 1", "Taper into indoor peak"),
    ("Phase 5 - Transition/Recovery", "Active recovery, variation"),
    ("Phase 6 - Outdoor Build", "100/200m base, special endurance, bends"),
    ("Phase 7 - Pre-Competition Outdoor", "Race-specific prep (100/200)"),
    ("Phase 8 - Taper & Peak 2", "Taper into outdoor peak"),
    ("Phase 9 - Post-season Reset", "Active recovery & reset") ]

/-- `ROTATIONS` of the source: the four weekly workout templates of each
day of the week (any other key is absent from the dict). -/
def ROTATIONS (day : String) : List String :=
  match day with
  | "Mon" =>
    [ "Warm-up + drills; Starts/accelerations; Core",
      "Warm-up + drills; Accel 30–40m; Relaxed 60m; Core",
      "Warm-up + drills; Accel 30m x8; Med ball; Core",
      "Warm-up + drills; Blocks; Accel; Short 50–60m; Core" ]
  | "Tue" =>
    [ "Drills; Flying 20–30m; Light plyo",
      "Drills; Relaxed strides; Bounding; Core",
      "Drills; Accel 30m; Hurdle hops; Med ball",
      "Drills; Flying 20–30m; Plyo circuit" ]
  | "Wed" =>
    [ "Bodyweight circuit (legs + push + core)",
      "Bands (rows, pull-aparts) + glutes + core",
      "Single-leg / balance strength + core",
      "Split squats + pull-aparts + stability core" ]
  | "Thu" =>
    [ "Key session: special endurance / race sim",
      "Key session: bend runs / race rhythm",
      "Key session: 150–200m @90–95% + starts",
      "Key session: race pace mix (100/200)" ]
  | "Fri" =>
    [ "Flying 20–30m; Blocks; Explosive circuit",
      "Accel 20–40m; Jump squats; Core",
      "Accel 20–30m; Bounding; Med ball",
      "Relaxed 40–60m; Blocks; Explosive lunges; Core" ]
  | "Sat" =>
    [ "Optional sprint (if fresh) or active recovery",
      "Optional: relaxed 150–200m + stretch",
      "Optional: accel + light plyo",
      "Optional: short race sim; or rest" ]
  | "Sun" =>
    [ "Rest / Competition",
      "Rest / Mobility",
      "Rest / Easy bike",
      "Rest" ]
  | _ => []

/-- The `phases_cfg` list built inside `build_schedule`: phase name with
inclusive start and end day, from the season boundaries and the two peak
anchors. -/
def phasesCfgOf (start stop peak1 peak2 : Int) : List (String × Int × Int) :=
  [ ("Phase 1 - General Prep", start, peak1 - 84),
    ("Phase 2 - Specific Prep", peak1 - 83, peak1 - 35),
    ("Phase 3 - Pre-Competition (Indoor)", peak1 - 34, peak1 - 7),
    ("Phase 4 - Taper & Peak 1", peak1 - 6, peak1),
    ("Phase 5 - Transition/Recovery", peak1 + 1, peak1 + 14),
    ("Phase 6 - Outdoor Build", peak1 + 15, peak2 - 49),
    ("Phase 7 - Pre-Competition Outdoor", peak2 - 48, peak2 - 14),
    ("Phase 8 - Taper & Peak 2", peak2 - 13, peak2),
    ("Phase 9 - Post-season Reset", peak2 + 1, stop) ]

/-- `phase_for` of the source: name of the first phase whose inclusive
range contains the date, `""` when none does. -/
def phaseFor (phases : List (String × Int × Int)) (d : Int) : String :=
  match phases.find? (fun p => decide (p.2.1 ≤ d ∧ d ≤ p.2.2)) with
  | some p => p.1
  | none => ""

/-- One manual time slot (`{"start": ..., "end": ..., "location": ...}`);
the `end` key is called `stop` here because `end` is reserved in Lean. -/
structure Slot where
  start : String
  stop : String
  location : String
deriving DecidableEq

/-- The `schedule` sub-config: mode string, sessions per week, the
`include_time_prefix` flag (called `timePrefixEnabled` here) and the
manual slots, a per-day list (the Python dict is read only through
`.get(day, [])`, a total function). -/
structure ScheduleCfg where
  mode : String
  sessionsPerWeek : Nat
  timePrefixEnabled : Bool
  slots : String → List Slot

/-- The `peaks` sub-config: the list of indoor peak dates and the outdoor
peak date. -/
structure Peaks where
  indoorPeakDates : List Int
  outdoorPeakDate : Int

/-- Personal bests (floats in the config, in hundredths of a second here;
never read by the builder). -/
structure Pbs where
  pb60 : Int
  pb100 : Int
  pb200 : Int

/-- The configuration object assembled by the UI and passed to
`build_schedule`.  Dates are day numbers (see the header). -/
structure Config where
  seasonStart : Int
  seasonEnd : Int
  athleteName : String
  age : Int
  sex : String
  pbs : Pbs
  bikeKmPerDay : Int
  peaks : Peaks
  events : List String
  schedule : ScheduleCfg

/-- `_time_prefix_manual` of the source: format every slot of the day as
`start-end @ location` and join with `" + "`. -/
def timePrefixManual (slots : List Slot) : String :=
  String.intercalate " + " (slots.map (fun s => s.start ++ "-" ++ s.stop ++ " @ " ++ s.location))

/-- One entry of the auto-schedule template table. -/
structure AutoEntry where
  location : String
  minutes : Nat
deriving DecidableEq

/-- The 5-sessions-per-week template of `_time_prefix_auto`. -/
def autoTable5 (day : String) : Option AutoEntry :=
  match day with
  | "Mon" => some ⟨"Statina/Club", 75⟩
  | "Tue" => some ⟨"Track", 60⟩
  | "Wed" => some ⟨"Home (core)", 60⟩
  | "Thu" => some ⟨"Papendal/Track", 105⟩
  | "Fri" => some ⟨"Track", 60⟩
  | _ => none

/-- The 4-sessions-per-week template of `_time_prefix_auto`. -/
def autoTable4 (day : String) : Option AutoEntry :=
  match day with
  | "Mon" => some ⟨"Club/Track", 75⟩
  | "Wed" => some ⟨"Home (core)", 45⟩
  | "Thu" => some ⟨"Track", 90⟩
  | "Fri" => some ⟨"Track", 60⟩
  | _ => none

/-- The 6-sessions-per-week template of `_time_prefix_auto`. -/
def autoTable6 (day : String) : Option AutoEntry :=
  match day with
  | "Mon" => some ⟨"Track", 75⟩
  | "Tue" => some ⟨"Track", 60⟩
  | "Wed" => some ⟨"Home (core)", 60⟩
  | "Thu" => some ⟨"Track", 105⟩
  | "Fri" => some ⟨"Track", 60⟩
  | "Sat" => some ⟨"Track (optional)", 90⟩
  | _ => none

/-- The outer `templates` dict of `_time_prefix_auto`: its keys are the
session counts 5, 4 and 6 — and no others. -/
def autoTemplates (n : Nat) : Option (String → Option AutoEntry) :=
  if n = 5 then some autoTable5
  else if n = 4 then some autoTable4
  else if n = 6 then some autoTable6
  else none

/-- `_time_prefix_auto` of the source: look the day up in the table for
the session count (falling back to the 5-session table), and format the
entry unless it is missing or has zero minutes. -/
def timePrefixAuto (day : String) (sessionsPerWeek : Nat) : String :=
  match ((autoTemplates sessionsPerWeek).getD autoTable5) day with
  | none => ""
  | some t =>
    if t.minutes = 0 then ""
    else "(@ " ++ t.location ++ ", ~" ++ toString t.minutes ++ " min) — "

/-- The day-cell computation of the builder loop: rotation text for the
rotation index, preceded by the optional manual/auto time annotation. -/
def dayCell (cfg : Config) (rotIdx : Nat) (day : String) : String :=
  let baseText := (ROTATIONS day).getD rotIdx ""
  let pfx :=
    if cfg.schedule.timePrefixEnabled then
      if cfg.schedule.mode = "manual" then
        let slots := cfg.schedule.slots day
        if slots.isEmpty then "" else timePrefixManual slots ++ " — "
      else if cfg.schedule.mode = "auto" then
        timePrefixAuto day cfg.schedule.sessionsPerWeek
      else ""
    else ""
  if pfx = "" then baseText else pfx ++ baseText

/-- The focus lookup of the builder loop:
`next((d for n, d in DEFAULT_PHASES if n == phase), "")`. -/
def focusOf (phase : String) : String :=
  ((DEFAULT_PHASES.find? (fun p => decide (p.1 = phase))).map Prod.snd).getD ""

/-- The volume-modifier computation of the builder loop (in hundredths):
the rounded commute × age base, overridden to `0.5` (50) for phases
containing `"Taper"` and then to `0.4` (40) for phases containing
`"Transition"` or `"Post-season"`. -/
def volModOf (cfg : Config) (phase : String) : Int :=
  let volMod0 := pyRound2m (mulB64m
    (if cfg.bikeKmPerDay ≥ 30 then d09m else oneM)
    (if cfg.age ≥ 16 then oneM else d095m))
  let volMod1 := if strContains phase "Taper" then 50 else volMod0
  if strContains phase "Transition" || strContains phase "Post-season" then 40 else volMod1

/-- The phase table `build_schedule` derives from a configuration
(`peak1` is `cfg["peaks"]["indoor_peak_dates"][0]`). -/
def phasesTblOf (cfg : Config) : List (String × Int × Int) :=
  phasesCfgOf cfg.seasonStart cfg.seasonEnd cfg.peaks.indoorPeakDates.headI
    cfg.peaks.outdoorPeakDate

/-- One row of the generated plan.  `weekOf` is the anchor's day number
(the source stores its `strftime` rendering); the seven day cells and the
volume modifier follow the source's row dict. -/
structure WeekRow where
  weekOf : Int
  phase : String
  focus : String
  mon : String
  tue : String
  wed : String
  thu : String
  fri : String
  sat : String
  sun : String
  volumeModifier : Int
deriving DecidableEq

/-- The body of the builder loop for the anchor of positional index `i`
and day number `w`: `none` when no phase matches (the `continue`),
otherwise the assembled row. -/
def rowFor (cfg : Config) (i : Nat) (w : Int) : Option WeekRow :=
  let phase := phaseFor (phasesTblOf cfg) w
  if phase = "" then none
  else
    some
      { weekOf := w
        phase := phase
        focus := focusOf phase
        mon := dayCell cfg (i % 4) "Mon"
        tue := dayCell cfg (i % 4) "Tue"
        wed := dayCell cfg (i % 4) "Wed"
        thu := dayCell cfg (i % 4) "Thu"
        fri := dayCell cfg (i % 4) "Fri"
        sat := dayCell cfg (i % 4) "Sat"
        sun := dayCell cfg (i % 4) "Sun"
        volumeModifier := volModOf cfg phase }

/-- `build_schedule` of the source: walk the Monday anchors of the season
with their positional index and keep the rows of the anchors that fall in
a phase. -/
def buildSchedule (cfg : Config) : List WeekRow :=
  ((mondays cfg.seasonStart cfg.seasonEnd).enum).filterMap
    (fun iw => rowFor cfg iw.1 iw.2)

/-- The rotation selection the builder applies: the `(n % 4)`-th template
of the day, for anchor index `n`. -/
def rotSelect (day : String) (n : Nat) : String :=
  (ROTATIONS day).getD (n % 4) ""

/-- The seven weekday keys, in the order the builder iterates them. -/
def weekDays : List String := ["Mon", "Tue", "Wed", "Thu", "Fri", "Sat", "Sun"]

/-- The fixed record `taper_protocol` returns. -/
structure TaperProtocol where
  volumeChange : String
  intensity : String
  keySessions : String
  strength : String
  restDays : String
  notes : String
deriving DecidableEq

/-- `taper_protocol` of the source: the A and B branches, and the final
(training-race) record for every other priority. -/
def taperProtocol (priority peakType : String) : TaperProtocol :=
  if priority = "A" then
    { volumeChange := "-40% to -60%"
      intensity := "High (short & sharp)"
      keySessions := "Mon: starts/accel; Tue: flying 20–30m; Thu: race-pace touches; Fri: micro-priming"
      strength := "Explosive only (bodyweight/bands)"
      restDays := "≥1 full rest day before race"
      notes := "A-peak (" ++ peakType ++ "): keep CNS fresh; no fatigue-dense work last 72h" }
  else if priority = "B" then
    { volumeChange := "-20% to -30%"
      intensity := "Moderate-high"
      keySessions := "Short starts + 1 race-pace rep"
      strength := "Light explosive set"
      restDays := "Optional rest day before race"
      notes := "Rehearsal race; do not over-taper" }
  else
    { volumeChange := "No change or -10%"
      intensity := "Normal training"
      keySessions := "Keep routine; short starts"
      strength := "Normal"
      restDays := "None required"
      notes := "Training race; prioritize learning" }

/-- The spec scenario configuration: season 2025-09-01 .. 2026-07-01,
indoor peaks 2026-02-21 / 2026-02-22, outdoor peak 2026-06-28, age 15,
32 bike km per day (schedule fields left at their cheapest setting; the
scenario does not constrain them and they do not affect phase or volume). -/
def cfgC3 : Config :=
  { seasonStart := daysFromCivil 2025 9 1
    seasonEnd := daysFromCivil 2026 7 1
    athleteName := "Kylie"
    age := 15
    sex := "F"
    pbs := { pb60 := 858, pb100 := 1348, pb200 := 2909 }
    bikeKmPerDay := 32
    peaks :=
      { indoorPeakDates := [daysFromCivil 2026 2 21, daysFromCivil 2026 2 22]
        outdoorPeakDate := daysFromCivil 2026 6 28 }
    events := ["60m", "100m", "200m"]
    schedule :=
      { mode := "none", sessionsPerWeek := 5, timePrefixEnabled := false
        slots := fun _ => [] } }

/-- A one-week season used as a concrete witness input: the single Monday
anchor (day number 4) is the indoor peak itself, so the only row falls in
"Phase 4 - Taper & Peak 1". -/
def cfgW : Config :=
  { seasonStart := 4
    seasonEnd := 4
    athleteName := "A"
    age := 20
    sex := "F"
    pbs := { pb60 := 900, pb100 := 1400, pb200 := 3000 }
    bikeKmPerDay := 0
    peaks := { indoorPeakDates := [4, 40], outdoorPeakDate := 400 }
    events := ["60m"]
    schedule :=
      { mode := "none", sessionsPerWeek := 5, timePrefixEnabled := false
        slots := fun _ => [] } }

/-- The single row `buildSchedule cfgW` produces. -/
def rowW : WeekRow :=
  { weekOf := 4
    phase := "Phase 4 - Taper & Peak 1"
    focus := "Taper into indoor peak"
    mon := "Warm-up + drills; Starts/accelerations; Core"
    tue := "Drills; Flying 20–30m; Light plyo"
    wed := "Bodyweight circuit (legs + push + core)"
    thu := "Key session: special endurance / race sim"
    fri := "Flying 20–30m; Blocks; Explosive circuit"
    sat := "Optional sprint (if fresh) or active recovery"
    sun := "Rest / Competition"
    volumeModifier := 50 }

/-- First of a pair of configurations that agree on every field the
builder reads and differ everywhere else. -/
def cfgA : Config :=
  { seasonStart := 4
    seasonEnd := 25
    athleteName := "Alice"
    age := 17
    sex := "F"
    pbs := { pb60 := 840, pb100 := 1300, pb200 := 2800 }
    bikeKmPerDay := 35
    peaks := { indoorPeakDates := [18, 99], outdoorPeakDate := 300 }
    events := ["60m", "200m"]
    schedule :=
      { mode := "auto", sessionsPerWeek := 4, timePrefixEnabled := true
        slots := fun _ => [] } }

/-- Second of the pair: same read fields as `cfgA`, different athlete
name, sex, personal bests, events and second indoor peak date. -/
def cfgB : Config :=
  { seasonStart := 4
    seasonEnd := 25
    athleteName := "Bob"
    age := 17
    sex := "M"
    pbs := { pb60 := 999, pb100 := 1555, pb200 := 3333 }
    bikeKmPerDay := 35
    peaks := { indoorPeakDates := [18, 123], outdoorPeakDate := 300 }
    events := ["100m"]
    schedule :=
      { mode := "auto", sessionsPerWeek := 4, timePrefixEnabled := true
        slots := fun _ => [] } }

/-- A configuration that cannot produce any anchor: the season is empty
(start after end), so the builder emits no row at all. -/
def cfgEmpty : Config :=
  { seasonStart := 10
    seasonEnd := 3
    athleteName := "B"
    age := 17
    sex := "M"
    pbs := { pb60 := 900, pb100 := 1400, pb200 := 3000 }
    bikeKmPerDay := 40
    peaks := { indoorPeakDates := [100, 110], outdoorPeakDate := 200 }
    events := []
    schedule :=
      { mode := "auto", sessionsPerWeek := 5, timePrefixEnabled := true
        slots := fun _ => [] } }

/-- The phase-boundary table exactly as the specification states it
(§4.1): nine phases, each bounded by fixed day offsets from the season
boundaries and the two peak anchors.  Written from the spec's words, to
be compared with `phasesCfgOf`, which is written from the source. -/
def specPhaseTable (seasonStart seasonEnd peakIndoor peakOutdoor : Int) :
    List (String × Int × Int) :=
  [ ("Phase 1 - General Prep", seasonStart, peakIndoor - 84),
    ("Phase 2 - Specific Prep", peakIndoor - 83, peakIndoor - 35),
    ("Phase 3 - Pre-Competition (Indoor)", peakIndoor - 34, peakIndoor - 7),
    ("Phase 4 - Taper & Peak 1", peakIndoor - 6, peakIndoor),
    ("Phase 5 - Transition/Recovery", peakIndoor + 1, peakIndoor + 14),
    ("Phase 6 - Outdoor Build", peakIndoor + 15, peakOutdoor - 49),
    ("Phase 7 - Pre-Competition Outdoor", peakOutdoor - 48, peakOutdoor - 14),
    ("Phase 8 - Taper & Peak 2", peakOutdoor - 13, peakOutdoor),
    ("Phase 9 - Post-season Reset", peakOutdoor + 1, seasonEnd) ]

section Helpers

/-- A date `d` lies in the inclusive range of a phase-table entry. -/
def inRange (d : Int) (p : String × Int × Int) : Prop := p.2.1 ≤ d ∧ d ≤ p.2.2

instance (d : Int) (p : String × Int × Int) : Decidable (inRange d p) := by
  unfold inRange; infer_instance

lemma snd_mem_of_mem_enum {α : Type} {l : List α} {i : Nat} {a : α}
    (h : (i, a) ∈ l.enum) : a ∈ l := by
  rw [List.enum_eq_zip_range] at h
  exact (List.of_mem_zip h).2

lemma mem_buildSchedule {cfg : Config} {r : WeekRow} (h : r ∈ buildSchedule cfg) :
    ∃ i w, (i, w) ∈ (mondays cfg.seasonStart cfg.seasonEnd).enum ∧ rowFor cfg i w = some r := by
  unfold buildSchedule at h
  rcases List.mem_filterMap.mp h with ⟨⟨i, w⟩, hm, he⟩
  exact ⟨i, w, hm, he⟩

lemma rowFor_eq_some {cfg : Config} {i : Nat} {w : Int} {r : WeekRow}
    (h : rowFor cfg i w = some r) :
    phaseFor (phasesTblOf cfg) w ≠ "" ∧
      r = { weekOf := w
            phase := phaseFor (phasesTblOf cfg) w
            focus := focusOf (phaseFor (phasesTblOf cfg) w)
            mon := dayCell cfg (i % 4) "Mon"
            tue := dayCell cfg (i % 4) "Tue"
            wed := dayCell cfg (i % 4) "Wed"
            thu := dayCell cfg (i % 4) "Thu"
            fri := dayCell cfg (i % 4) "Fri"
            sat := dayCell cfg (i % 4) "Sat"
            sun := dayCell cfg (i % 4) "Sun"
            volumeModifier := volModOf cfg (phaseFor (phasesTblOf cfg) w) } := by
  unfold rowFor at h
  by_cases hp : phaseFor (phasesTblOf cfg) w = ""
  · rw [if_pos hp] at h; exact absurd h (by simp)
  · rw [if_neg hp] at h
    exact ⟨hp, (Option.some_injective _ h).symm⟩

lemma mem_mondays (s e w : Int) :
    w ∈ mondays s e ↔ w % 7 = 4 ∧ s ≤ w ∧ w ≤ e := by
  unfold mondays firstMondayFrom
  constructor
  · intro hw
    rcases List.mem_map.mp hw with ⟨i, hi, rfl⟩
    rw [List.mem_range] at hi
    refine ⟨?_, ?_, ?_⟩ <;> omega
  · rintro ⟨h2, h3, h4⟩
    refine List.mem_map.mpr
      ⟨((w - (s + (4 - s) % 7)) / 7).toNat, List.mem_range.mpr ?_, ?_⟩ <;> omega

lemma phaseFor_eq_empty {l : List (String × Int × Int)} {d : Int}
    (h : ∀ p ∈ l, ¬ inRange d p) : phaseFor l d = "" := by
  unfold phaseFor
  rw [List.find?_eq_none.mpr]
  intro p hp
  simpa [inRange] using h p hp

lemma phaseFor_first (l1 l2 : List (String × Int × Int)) (p : String × Int × Int) (d : Int)
    (h1 : ∀ q ∈ l1, ¬ inRange d q) (h2 : inRange d p) :
    phaseFor (l1 ++ p :: l2) d = p.1 := by
  induction l1 with
  | nil =>
    unfold phaseFor
    rw [List.nil_append, List.find?_cons_of_pos _ (by simpa [inRange] using h2)]
  | cons a t ih =>
    have ha : ¬ inRange d a := h1 a (List.mem_cons_self a t)
    unfold phaseFor at ih ⊢
    rw [List.cons_append, List.find?_cons_of_neg _ (by simpa [inRange] using ha)]
    exact ih fun q hq => h1 q (List.mem_cons_of_mem a hq)

/-- The nine phase names, in table order. -/
def phaseNamesList : List String :=
  [ "Phase 1 - General Prep", "Phase 2 - Specific Prep", "Phase 3 - Pre-Competition (Indoor)",
    "Phase 4 - Taper & Peak 1", "Phase 5 - Transition/Recovery", "Phase 6 - Outdoor Build",
    "Phase 7 - Pre-Competition Outdoor", "Phase 8 - Taper & Peak 2",
    "Phase 9 - Post-season Reset" ]

lemma phaseFor_mem (l : List (String × Int × Int)) (d : Int) :
    phaseFor l d = "" ∨ phaseFor l d ∈ l.map Prod.fst := by
  unfold phaseFor
  cases h : l.find? (fun p => decide (p.2.1 ≤ d ∧ d ≤ p.2.2)) with
  | none => exact Or.inl rfl
  | some p => exact Or.inr (List.mem_map_of_mem Prod.fst (List.mem_of_find?_eq_some h))

lemma volModOf_taper {cfg : Config} {phase : String}
    (h1 : strContains phase "Taper" = true) (h2 : strContains phase "Transition" = false)
    (h3 : strContains phase "Post-season" = false) : volModOf cfg phase = 50 := by
  simp [volModOf, h1, h2, h3]

lemma volModOf_override40 {cfg : Config} {phase : String}
    (h : strContains phase "Transition" = true ∨ strContains phase "Post-season" = true) :
    volModOf cfg phase = 40 := by
  rcases h with h | h <;> simp [volModOf, h]

lemma volModOf_base {cfg : Config} {phase : String}
    (h1 : strContains phase "Taper" = false) (h2 : strContains phase "Transition" = false)
    (h3 : strContains phase "Post-season" = false) :
    volModOf cfg phase = pyRound2m (mulB64m
      (if cfg.bikeKmPerDay ≥ 30 then d09m else oneM)
      (if cfg.age ≥ 16 then oneM else d095m)) := by
  simp [volModOf, h1, h2, h3]

lemma rowFor_of_no_phase {cfg : Config} {i : Nat} {w : Int}
    (h : phaseFor (phasesTblOf cfg) w = "") : rowFor cfg i w = none := by
  simp [rowFor, h]

lemma buildSchedule_eq_nil {cfg : Config}
    (h : ∀ w ∈ mondays cfg.seasonStart cfg.seasonEnd, phaseFor (phasesTblOf cfg) w = "") :
    buildSchedule cfg = [] := by
  unfold buildSchedule
  rw [List.filterMap_eq_nil_iff]
  rintro ⟨i, w⟩ hm
  exact rowFor_of_no_phase (h w (snd_mem_of_mem_enum hm))

end Helpers

section Claims

/-- C1: `build_schedule`'s phase segmentation is the spec's table: nine
phases in the fixed order, with exactly the spec's day offsets as
boundaries, and every pair of consecutive phases is contiguous
(`end + 1 = start` of the next). -/
theorem phase_segmentation_matches_spec (s e p1 p2 : Int) :
    phasesCfgOf s e p1 p2 = specPhaseTable s e p1 p2 ∧
    (phasesCfgOf s e p1 p2).length = 9 ∧
    List.Chain' (fun a b => a.2.2 + 1 = b.2.1) (phasesCfgOf s e p1 p2) := by
  refine ⟨rfl, rfl, ?_⟩
  simp [phasesCfgOf, List.chain'_cons, List.chain'_singleton]
  omega

/-- C4: for every configuration, phase resolution is a first-match scan
over the nine ranges and is total — a date in no range yields the empty
sentinel (`"no phase"`) — the builder emits no row for an anchor with no
phase, and consequently a configuration all of whose weekly anchors miss
every phase produces zero rows instead of failing. -/
theorem phase_resolution_total_and_anchors_skipped (cfg : Config) :
    (∀ d : Int, (∀ p ∈ phasesTblOf cfg, ¬ inRange d p) → phaseFor (phasesTblOf cfg) d = "") ∧
    (∀ (d : Int) (l1 l2 : List (String × Int × Int)) (p : String × Int × Int),
      phasesTblOf cfg = l1 ++ p :: l2 → (∀ q ∈ l1, ¬ inRange d q) → inRange d p →
      phaseFor (phasesTblOf cfg) d = p.1) ∧
    (∀ (i : Nat) (w : Int), phaseFor (phasesTblOf cfg) w = "" → rowFor cfg i w = none) ∧
    ((∀ w ∈ mondays cfg.seasonStart cfg.seasonEnd, phaseFor (phasesTblOf cfg) w = "") →
      buildSchedule cfg = []) := by
  refine ⟨fun d hd => phaseFor_eq_empty hd, ?_, ?_, fun h => buildSchedule_eq_nil h⟩
  · intro d l1 l2 p htbl h1 h2
    rw [htbl]
    exact phaseFor_first l1 l2 p d h1 h2
  · intro i w hw
    exact rowFor_of_no_phase hw

/-- C7: the weekly anchors the builder enumerates are exactly the Mondays
of `[season_start, season_end]`, and every emitted row's week-start date
is such a Monday, hence falls inside the season. -/
theorem anchors_are_mondays_in_season (cfg : Config) (w : Int) (r : WeekRow)
    (hr : r ∈ buildSchedule cfg) :
    (w ∈ mondays cfg.seasonStart cfg.seasonEnd ↔
      w % 7 = 4 ∧ cfg.seasonStart ≤ w ∧ w ≤ cfg.seasonEnd) ∧
    cfg.seasonStart ≤ r.weekOf ∧ r.weekOf ≤ cfg.seasonEnd ∧ r.weekOf % 7 = 4 := by
  refine ⟨mem_mondays _ _ _, ?_⟩
  rcases mem_buildSchedule hr with ⟨i, w', hm, he⟩
  rcases rowFor_eq_some he with ⟨hp, rfl⟩
  have hw : w' ∈ mondays cfg.seasonStart cfg.seasonEnd := snd_mem_of_mem_enum hm
  rw [mem_mondays] at hw
  exact ⟨hw.2.1, hw.2.2, hw.1⟩

/-- C2: every emitted row's volume modifier is `0.5` (50 hundredths) when
its phase name contains `"Taper"`, `0.4` (40) when it contains
`"Transition"` or `"Post-season"`, and otherwise Python's
`round(commute_factor * age_factor, 2)` with `commute_factor = 0.9` iff
`bike_km_per_day ≥ 30` (else `1.0`) and `age_factor = 1.0` iff
`age ≥ 16` (else `0.95`); the overrides apply regardless of the age and
bike inputs. -/
theorem volume_modifier_formula (cfg : Config) (r : WeekRow) (hr : r ∈ buildSchedule cfg) :
    (strContains r.phase "Taper" = true → r.volumeModifier = 50) ∧
    ((strContains r.phase "Transition" = true ∨ strContains r.phase "Post-season" = true) →
      r.volumeModifier = 40) ∧
    (strContains r.phase "Taper" = false → strContains r.phase "Transition" = false →
      strContains r.phase "Post-season" = false →
      r.volumeModifier = pyRound2m (mulB64m
        (if cfg.bikeKmPerDay ≥ 30 then d09m else oneM)
        (if cfg.age ≥ 16 then oneM else d095m))) := by
  obtain ⟨i, w, hm, he⟩ := mem_buildSchedule hr
  obtain ⟨hp, hr2⟩ := rowFor_eq_some he
  have ephase : r.phase = phaseFor (phasesTblOf cfg) w := by rw [hr2]
  have evol : r.volumeModifier = volModOf cfg (phaseFor (phasesTblOf cfg) w) := by rw [hr2]
  rw [ephase, evol]
  have hmem : phaseFor (phasesTblOf cfg) w ∈ (phasesTblOf cfg).map Prod.fst := by
    rcases phaseFor_mem (phasesTblOf cfg) w with h | h
    · exact absurd h hp
    · exact h
  have hnames : (phasesTblOf cfg).map Prod.fst = phaseNamesList := rfl
  rw [hnames] at hmem
  simp only [phaseNamesList, List.mem_cons, List.not_mem_nil, or_false] at hmem
  rcases hmem with h | h | h | h | h | h | h | h | h <;> rw [h]
  · exact ⟨fun hT => absurd hT (by decide),
      fun hTr => by rcases hTr with h2 | h2 <;> exact absurd h2 (by decide),
      fun t1 t2 t3 => volModOf_base t1 t2 t3⟩
  · exact ⟨fun hT => absurd hT (by decide),
      fun hTr => by rcases hTr with h2 | h2 <;> exact absurd h2 (by decide),
      fun t1 t2 t3 => volModOf_base t1 t2 t3⟩
  · exact ⟨fun hT => absurd hT (by decide),
      fun hTr => by rcases hTr with h2 | h2 <;> exact absurd h2 (by decide),
      fun t1 t2 t3 => volModOf_base t1 t2 t3⟩
  · exact ⟨fun hT => volModOf_taper hT (by decide) (by decide),
      fun hTr => by rcases hTr with h2 | h2 <;> exact absurd h2 (by decide),
      fun t1 _ _ => absurd t1 (by decide)⟩
  · exact ⟨fun hT => absurd hT (by decide),
      fun hTr => volModOf_override40 hTr,
      fun _ t2 _ => absurd t2 (by decide)⟩
  · exact ⟨fun hT => absurd hT (by decide),
      fun hTr => by rcases hTr with h2 | h2 <;> exact absurd h2 (by decide),
      fun t1 t2 t3 => volModOf_base t1 t2 t3⟩
  · exact ⟨fun hT => absurd hT (by decide),
      fun hTr => by rcases hTr with h2 | h2 <;> exact absurd h2 (by decide),
      fun t1 t2 t3 => volModOf_base t1 t2 t3⟩
  · exact ⟨fun hT => volModOf_taper hT (by decide) (by decide),
      fun hTr => by rcases hTr with h2 | h2 <;> exact absurd h2 (by decide),
      fun t1 _ _ => absurd t1 (by decide)⟩
  · exact ⟨fun hT => absurd hT (by decide),
      fun hTr => volModOf_override40 hTr,
      fun _ _ t3 => absurd t3 (by decide)⟩

/-- Witness for C2 at the one-week season `cfgW` and its emitted row
`rowW`, whose phase is the taper phase. -/
theorem volume_modifier_formula_witness :
    (strContains rowW.phase "Taper" = true → rowW.volumeModifier = 50) ∧
    ((strContains rowW.phase "Transition" = true ∨ strContains rowW.phase "Post-season" = true) →
      rowW.volumeModifier = 40) ∧
    (strContains rowW.phase "Taper" = false → strContains rowW.phase "Transition" = false →
      strContains rowW.phase "Post-season" = false →
      rowW.volumeModifier = pyRound2m (mulB64m
        (if cfgW.bikeKmPerDay ≥ 30 then d09m else oneM)
        (if cfgW.age ≥ 16 then oneM else d095m))) :=
  volume_modifier_formula cfgW rowW (by decide)

/-- Counterexample to C3: in the spec scenario the first emitted row does
have phase "Phase 1 - General Prep", but its volume modifier is `0.85`
(85 hundredths), not the claimed `round(0.9 × 0.95, 2) = 0.86`: the
binary64 product of the floats `0.9` and `0.95` is just below `0.855`, so
Python's `round` gives `0.85`. -/
theorem scenario_first_row_counterexample :
    ((buildSchedule cfgC3).head?.map (fun r => (r.phase, r.volumeModifier))) =
      some ("Phase 1 - General Prep", 85) ∧ (85 : Int) ≠ 86 := by
  constructor
  · decide
  · decide

/-- C3 as amended: in the scenario configuration the first row has phase
"Phase 1 - General Prep" and volume modifier `0.85` (Python's rounding of
the float product `0.9 × 0.95`), and the row of week 2026-02-16 has phase
"Phase 4 - Taper & Peak 1" and volume modifier `0.5`. -/
theorem scenario_rows :
    ((buildSchedule cfgC3).head?.map (fun r => (r.phase, r.volumeModifier))) =
      some ("Phase 1 - General Prep", 85) ∧
    (((buildSchedule cfgC3).find? (fun r => decide (r.weekOf = daysFromCivil 2026 2 16))).map
        (fun r => (r.phase, r.volumeModifier))) =
      some ("Phase 4 - Taper & Peak 1", 50) := by
  constructor
  · decide
  · decide

/-- Witness for C7 at the one-week season `cfgW`, whose single emitted row
is `rowW`. -/
theorem anchors_are_mondays_in_season_witness :
    (4 ∈ mondays cfgW.seasonStart cfgW.seasonEnd ↔
      (4 : Int) % 7 = 4 ∧ cfgW.seasonStart ≤ 4 ∧ (4 : Int) ≤ cfgW.seasonEnd) ∧
    cfgW.seasonStart ≤ rowW.weekOf ∧ rowW.weekOf ≤ cfgW.seasonEnd ∧ rowW.weekOf % 7 = 4 :=
  anchors_are_mondays_in_season cfgW 4 rowW (by decide)

/-- Counterexample to C5: the built-in template table is not keyed by
the session counts 3, 4, 5, 6 — it has no entry for 3 at all, so
`sessions_per_week = 3` is treated like any unsupported count and falls
back to the 5-session table (here observed on day "Tue"). -/
theorem auto_annotation_counterexample :
    autoTemplates 3 = none ∧ (autoTemplates 4).isSome = true ∧
    (autoTemplates 5).isSome = true ∧ (autoTemplates 6).isSome = true ∧
    timePrefixAuto "Tue" 3 = timePrefixAuto "Tue" 5 ∧
    timePrefixAuto "Tue" 3 = "(@ Track, ~60 min) — " := by
  refine ⟨rfl, rfl, rfl, rfl, rfl, ?_⟩
  decide

/-- C5 as amended: the auto annotator's table is keyed by the session
counts 4, 5 and 6, any other count (3 or 7 included) falling back to the
5-session table; a weekday with a nonzero-duration entry yields the
prefix `"(@ location, ~minutes min) — "` and any other weekday the empty
string; `sessions_per_week = 5` on "Thu" yields
`"(@ Papendal/Track, ~105 min) — "` and `sessions_per_week = 7` uses the
5-session table. -/
theorem auto_annotation_lookup (day : String) (n : Nat)
    (h : n ≠ 4 ∧ n ≠ 5 ∧ n ≠ 6) :
    timePrefixAuto day n = timePrefixAuto day 5 ∧
    (autoTemplates 4).isSome = true ∧ (autoTemplates 5).isSome = true ∧
    (autoTemplates 6).isSome = true ∧
    (∀ (d : String) (m : Nat) (t : AutoEntry),
      ((autoTemplates m).getD autoTable5) d = some t → t.minutes ≠ 0 →
      timePrefixAuto d m = "(@ " ++ t.location ++ ", ~" ++ toString t.minutes ++ " min) — ") ∧
    (∀ (d : String) (m : Nat),
      (((autoTemplates m).getD autoTable5) d = none ∨
        ∃ t : AutoEntry, ((autoTemplates m).getD autoTable5) d = some t ∧ t.minutes = 0) →
      timePrefixAuto d m = "") ∧
    timePrefixAuto "Thu" 5 = "(@ Papendal/Track, ~105 min) — " ∧
    timePrefixAuto "Thu" 7 = timePrefixAuto "Thu" 5 := by
  refine ⟨?_, rfl, rfl, rfl, ?_, ?_, by decide, by decide⟩
  · unfold timePrefixAuto autoTemplates
    rw [if_neg h.2.1, if_neg h.1, if_neg h.2.2]
    rfl
  · intro d m t ht hz
    unfold timePrefixAuto
    rw [ht]
    simp [hz]
  · intro d m hcase
    unfold timePrefixAuto
    rcases hcase with hnone | ⟨t, ht, hz⟩
    · rw [hnone]
    · rw [ht]
      simp [hz]

/-- Witness for C5 (amended) at `sessions_per_week = 7` and day "Sat". -/
theorem auto_annotation_lookup_witness :
    timePrefixAuto "Sat" 7 = timePrefixAuto "Sat" 5 ∧
    (autoTemplates 4).isSome = true ∧ (autoTemplates 5).isSome = true ∧
    (autoTemplates 6).isSome = true ∧
    (∀ (d : String) (m : Nat) (t : AutoEntry),
      ((autoTemplates m).getD autoTable5) d = some t → t.minutes ≠ 0 →
      timePrefixAuto d m = "(@ " ++ t.location ++ ", ~" ++ toString t.minutes ++ " min) — ") ∧
    (∀ (d : String) (m : Nat),
      (((autoTemplates m).getD autoTable5) d = none ∨
        ∃ t : AutoEntry, ((autoTemplates m).getD autoTable5) d = some t ∧ t.minutes = 0) →
      timePrefixAuto d m = "") ∧
    timePrefixAuto "Thu" 5 = "(@ Papendal/Track, ~105 min) — " ∧
    timePrefixAuto "Thu" 7 = timePrefixAuto "Thu" 5 :=
  auto_annotation_lookup "Sat" 7 (by decide)

/-- C6: every weekday of the rotation table has exactly four canned
templates, the builder's selection for anchor index `n` is the
`(n % 4)`-th of them, and selection is periodic with period 4. -/
theorem rotation_period_four (day : String) (n : Nat) (h : day ∈ weekDays) :
    (ROTATIONS day).length = 4 ∧
    rotSelect day n = (ROTATIONS day).getD (n % 4) "" ∧
    rotSelect day n = rotSelect day (n + 4) := by
  refine ⟨?_, rfl, ?_⟩
  · fin_cases h <;> rfl
  · unfold rotSelect
    rw [Nat.add_mod_right]

/-- Witness for C6 at day "Thu" and anchor index 5. -/
theorem rotation_period_four_witness :
    (ROTATIONS "Thu").length = 4 ∧
    rotSelect "Thu" 5 = (ROTATIONS "Thu").getD (5 % 4) "" ∧
    rotSelect "Thu" 5 = rotSelect "Thu" (5 + 4) :=
  rotation_period_four "Thu" 5 (by decide)

/-- C8: the taper advisor is a pure three-branch lookup — any priority
outside A/B/C yields the C (training-race) protocol, the peak type is
interpolated only into the Notes field of the A branch (all other fields
of every branch are independent of it), and for priority "A" with peak
type "Indoor 60/200" the volume change is "-40% to -60%" and the Notes
contain "Indoor 60/200". -/
theorem taper_advisor_lookup (p pt pt2 : String)
    (h : p ≠ "A" ∧ p ≠ "B" ∧ p ≠ "C") :
    taperProtocol p pt = taperProtocol "C" pt ∧
    (∀ q : String, q ≠ "A" → taperProtocol q pt = taperProtocol q pt2) ∧
    ({ taperProtocol "A" pt with notes := "" } : TaperProtocol) =
      { taperProtocol "A" pt2 with notes := "" } ∧
    (taperProtocol "A" "Indoor 60/200").volumeChange = "-40% to -60%" ∧
    (∃ a b : String,
      (taperProtocol "A" "Indoor 60/200").notes = a ++ "Indoor 60/200" ++ b) := by
  refine ⟨?_, ?_, rfl, rfl,
    ⟨"A-peak (", "): keep CNS fresh; no fatigue-dense work last 72h", rfl⟩⟩
  · unfold taperProtocol
    rw [if_neg h.1, if_neg h.2.1]
    rfl
  · intro q hq
    unfold taperProtocol
    rw [if_neg hq, if_neg hq]

/-- Witness for C8 at the out-of-range priority "D". -/
theorem taper_advisor_lookup_witness :
    taperProtocol "D" "x" = taperProtocol "C" "x" ∧
    (∀ q : String, q ≠ "A" → taperProtocol q "x" = taperProtocol q "y") ∧
    ({ taperProtocol "A" "x" with notes := "" } : TaperProtocol) =
      { taperProtocol "A" "y" with notes := "" } ∧
    (taperProtocol "A" "Indoor 60/200").volumeChange = "-40% to -60%" ∧
    (∃ a b : String,
      (taperProtocol "A" "Indoor 60/200").notes = a ++ "Indoor 60/200" ++ b) :=
  taper_advisor_lookup "D" "x" "y" (by decide)

/-- C9: the builder's output depends only on the season boundaries, the
first indoor peak date, the outdoor peak date, the bike and age inputs
and the schedule sub-config; two configurations that agree on those —
whatever their athlete name, sex, personal bests, events or second indoor
peak date — produce identical row sequences. -/
theorem schedule_noninterference (c1 c2 : Config)
    (h1 : c1.seasonStart = c2.seasonStart) (h2 : c1.seasonEnd = c2.seasonEnd)
    (h3 : c1.peaks.indoorPeakDates.headI = c2.peaks.indoorPeakDates.headI)
    (h4 : c1.peaks.outdoorPeakDate = c2.peaks.outdoorPeakDate)
    (h5 : c1.bikeKmPerDay = c2.bikeKmPerDay) (h6 : c1.age = c2.age)
    (h7 : c1.schedule.mode = c2.schedule.mode)
    (h8 : c1.schedule.sessionsPerWeek = c2.schedule.sessionsPerWeek)
    (h9 : c1.schedule.timePrefixEnabled = c2.schedule.timePrefixEnabled)
    (h10 : c1.schedule.slots = c2.schedule.slots) :
    buildSchedule c1 = buildSchedule c2 := by
  have hcell : dayCell c1 = dayCell c2 := by
    funext rotIdx day
    unfold dayCell
    rw [h9, h7, h10, h8]
  have hvol : volModOf c1 = volModOf c2 := by
    funext phase
    unfold volModOf
    rw [h5, h6]
  have htbl : phasesTblOf c1 = phasesTblOf c2 := by
    unfold phasesTblOf
    rw [h1, h2, h3, h4]
  have hrow : (fun (iw : Nat × Int) => rowFor c1 iw.1 iw.2) =
      (fun (iw : Nat × Int) => rowFor c2 iw.1 iw.2) := by
    funext iw
    unfold rowFor
    rw [htbl, hvol, hcell]
  unfold buildSchedule
  rw [h1, h2, hrow]

/-- Witness for C9: `cfgA` and `cfgB` differ in athlete name, sex,
personal bests, events and the second indoor peak date, yet build the
same schedule. -/
theorem schedule_noninterference_witness : buildSchedule cfgA = buildSchedule cfgB :=
  schedule_noninterference cfgA cfgB rfl rfl rfl rfl rfl rfl rfl rfl rfl rfl

/-- C10: with `include_time_prefix` off, the row the builder emits for
the anchor of positional index `i` — and every emitted row arises from
exactly such an anchor — carries in each day cell exactly the bare
rotation template of that weekday at rotation index `i % 4`, whatever
the schedule mode, manual slots or session count. -/
theorem bare_rotation_cells (cfg : Config)
    (h : cfg.schedule.timePrefixEnabled = false) (i : Nat) (w : Int) (r : WeekRow)
    (hiw : (i, w) ∈ (mondays cfg.seasonStart cfg.seasonEnd).enum)
    (he : rowFor cfg i w = some r) :
    r ∈ buildSchedule cfg ∧
    (∀ r2 ∈ buildSchedule cfg, ∃ i2 w2,
      (i2, w2) ∈ (mondays cfg.seasonStart cfg.seasonEnd).enum ∧ rowFor cfg i2 w2 = some r2) ∧
    r.weekOf = w ∧
    r.mon = rotSelect "Mon" i ∧ r.tue = rotSelect "Tue" i ∧ r.wed = rotSelect "Wed" i ∧
    r.thu = rotSelect "Thu" i ∧ r.fri = rotSelect "Fri" i ∧ r.sat = rotSelect "Sat" i ∧
    r.sun = rotSelect "Sun" i := by
  obtain ⟨hp, hr2⟩ := rowFor_eq_some he
  have hcell : ∀ day : String, dayCell cfg (i % 4) day = (ROTATIONS day).getD (i % 4) "" := by
    intro day
    unfold dayCell
    rw [h]
    simp
  refine ⟨List.mem_filterMap.mpr ⟨(i, w), hiw, he⟩,
    fun r2 hr2m => mem_buildSchedule hr2m, ?_, ?_, ?_, ?_, ?_, ?_, ?_, ?_⟩
  · rw [hr2]
  · rw [hr2]
    exact hcell "Mon"
  · rw [hr2]
    exact hcell "Tue"
  · rw [hr2]
    exact hcell "Wed"
  · rw [hr2]
    exact hcell "Thu"
  · rw [hr2]
    exact hcell "Fri"
  · rw [hr2]
    exact hcell "Sat"
  · rw [hr2]
    exact hcell "Sun"

/-- Witness for C10 at the one-week season `cfgW` (whose
`include_time_prefix` is off), its single anchor `(0, 4)` and its emitted
row `rowW`. -/
theorem bare_rotation_cells_witness :
    rowW ∈ buildSchedule cfgW ∧
    (∀ r2 ∈ buildSchedule cfgW, ∃ i2 w2,
      (i2, w2) ∈ (mondays cfgW.seasonStart cfgW.seasonEnd).enum ∧ rowFor cfgW i2 w2 = some r2) ∧
    rowW.weekOf = 4 ∧
    rowW.mon = rotSelect "Mon" 0 ∧ rowW.tue = rotSelect "Tue" 0 ∧ rowW.wed = rotSelect "Wed" 0 ∧
    rowW.thu = rotSelect "Thu" 0 ∧ rowW.fri = rotSelect "Fri" 0 ∧ rowW.sat = rotSelect "Sat" 0 ∧
    rowW.sun = rotSelect "Sun" 0 :=
  bare_rotation_cells cfgW rfl 0 4 rowW (by decide) (by decide)

end Claims

end SprintPlanner
